import Mathlib

/-!
# Verification of the Receipt-Extractor server core

A shallow embedding of the receipt-processing pipeline of the
Receipt-Extractor repository:

* `apps/server/src/server.js` — the `/api/submit` handler, `validateFields`
  and the closed `FIELD_SCHEMA`, `createListItem`, `getGraphToken`,
  `uploadAttachment`, the `BATCH_ID_REGEX` check, and upload-side batch-id
  generation;
* `apps/server/src/services/ocrService.js` — `analyzeReceipt`,
  `_startAnalysis`, `_pollForResults`, `_extractReceiptData`,
  `_extractFieldValue`, `_getMockData`;
* `apps/server/src/middleware/secureUpload.js` — `sanitizeFilename` and the
  multer `fileFilter`.

JavaScript strings are Lean `String`s, numbers are `ℚ` (only comparisons,
`min`, `* 1.2` and `+` occur on the numbers that matter, so no float
rounding is observable at the granularity of the statements proved here),
JS `null`/`undefined` are `Option`, thrown exceptions are `Except`.
External effects (Azure OCR responses, Microsoft Graph calls, the
filesystem) are supplied by explicit environment records, and the handlers
additionally return the chronological trace of filesystem operations they
perform, so that "no filesystem call happens before X" claims are
statements about that trace.
-/

set_option autoImplicit false

/-- Decidable equality for `Except`, so that concrete runs of the embedded
functions can be checked by `decide`. -/
instance instDecEqExcept {ε α : Type} [DecidableEq ε] [DecidableEq α] :
    DecidableEq (Except ε α) := fun x y =>
  match x, y with
  | .ok a, .ok b =>
    if h : a = b then .isTrue (by rw [h])
    else .isFalse (fun hh => by cases hh; exact h rfl)
  | .error a, .error b =>
    if h : a = b then .isTrue (by rw [h])
    else .isFalse (fun hh => by cases hh; exact h rfl)
  | .ok _, .error _ => .isFalse (fun hh => by cases hh)
  | .error _, .ok _ => .isFalse (fun hh => by cases hh)

/-! ## JavaScript values and the closed field schema (server.js 560–579) -/

/-- A JSON/JavaScript value, as far as `validateFields` can distinguish
them with `typeof`. -/
inductive JVal where
  | str : String → JVal
  | num : ℚ → JVal
  | bool : Bool → JVal
  | null : JVal
deriving DecidableEq, Repr

/-- JavaScript `typeof v` for the values of `JVal`
(`typeof null` is `"object"`). -/
def jsTypeof : JVal → String
  | .str _ => "string"
  | .num _ => "number"
  | .bool _ => "boolean"
  | .null => "object"

/-- `FIELD_SCHEMA` of server.js lines 560–568: the closed field set, each
mapped to its expected `typeof` string. -/
def FIELD_SCHEMA : List (String × String) :=
  [("vendor", "string"), ("total", "string"), ("transactionDate", "string"),
   ("merchantAddress", "string"), ("merchantPhone", "string"),
   ("subtotal", "string"), ("tax", "string")]

/-- `validateFields` of server.js lines 570–579.  The JS object is
represented by its `Object.entries` list (insertion order, unique keys).
The function walks the entries; an unknown key or a value of the wrong
`typeof` throws (here: `Except.error` with the JS error message), otherwise
the sanitized entry list is returned. -/
def validateFields : List (String × JVal) → Except String (List (String × JVal))
  | [] => .ok []
  | (k, v) :: rest =>
    match List.lookup k FIELD_SCHEMA with
    | none => .error ("Invalid field: " ++ k)
    | some expected =>
      if jsTypeof v ≠ expected then
        .error ("Invalid type for " ++ k ++ ": expected " ++ expected)
      else
        match validateFields rest with
        | .error e => .error e
        | .ok s => .ok ((k, v) :: s)

/-! ## OCR field records (ocrService.js) -/

/-- The object shape returned by `OCRService._extractReceiptData` and
`OCRService._getMockData`: seven string fields plus a numeric confidence.
(The degraded record built by the upload route's `catch` has a different
shape and is not produced by `analyzeReceipt` itself.) -/
structure FieldRecord where
  vendor : String
  total : String
  transactionDate : String
  merchantAddress : String
  merchantPhone : String
  subtotal : String
  tax : String
  confidence : ℚ
deriving DecidableEq, Repr

/-- The JS object of a `FieldRecord`, as its `Object.entries` list in the
construction order of `_extractReceiptData` / `_getMockData` (the seven
string fields followed by the numeric `confidence` key). -/
def fieldRecordEntries (r : FieldRecord) : List (String × JVal) :=
  [("vendor", .str r.vendor), ("total", .str r.total),
   ("transactionDate", .str r.transactionDate),
   ("merchantAddress", .str r.merchantAddress),
   ("merchantPhone", .str r.merchantPhone),
   ("subtotal", .str r.subtotal), ("tax", .str r.tax),
   ("confidence", .num r.confidence)]

/-- `OCRService._getMockData` (ocrService.js 218–229); `today` stands for
`new Date().toISOString().slice(0, 10)` and `0.95 = 19/20`. -/
def mockData (today : String) : FieldRecord :=
  { vendor := "Demo Store", total := "12.34", transactionDate := today,
    merchantAddress := "", merchantPhone := "", subtotal := "10.99",
    tax := "1.35", confidence := 19/20 }

/-- One structured field of the Azure result: `confidence`, `content` and
`value` properties, each possibly absent. -/
structure FieldData where
  confidence : Option ℚ
  content : Option String
  value : Option String
deriving DecidableEq, Repr

/-- The named fields `_extractReceiptData` reads from
`document.fields`. -/
structure DocFields where
  MerchantName : Option FieldData
  VendorName : Option FieldData
  Total : Option FieldData
  TransactionDate : Option FieldData
  MerchantAddress : Option FieldData
  MerchantPhoneNumber : Option FieldData
  Subtotal : Option FieldData
  TotalTax : Option FieldData
deriving DecidableEq, Repr

/-- One element of `analyzeResult.documents`. -/
structure OcrDocument where
  fields : Option DocFields
  confidence : Option ℚ
deriving DecidableEq, Repr

/-- The `analyzeResult` object of a poll payload. -/
structure AnalyzeResult where
  documents : Option (List OcrDocument)
deriving DecidableEq, Repr

/-- The JSON payload of one poll response: its `status` string, the
optional `error.message`, and the optional `analyzeResult`. -/
structure OcrResult where
  status : String
  errorMessage : Option String
  analyzeResult : Option AnalyzeResult
deriving DecidableEq, Repr

/-- JavaScript `a || b` for string-valued operands where `a` is
absent-or-string: `a` is kept iff it is truthy (present and non-empty). -/
def jsOrOpt (a b : Option String) : Option String :=
  match a with
  | some s => if s = "" then b else some s
  | none => b

/-- JavaScript `a || ''` for an absent-or-string operand. -/
def orEmptyStr (a : Option String) : String :=
  match a with
  | some s => s
  | none => ""

/-- The guard `field.confidence && field.confidence < 0.5` of
`_extractFieldValue` (ocrService.js 172): it fires only when the
confidence is present, truthy (non-zero) and below `1/2`. -/
def confBlocks : Option ℚ → Bool
  | some c => decide (c ≠ 0) && decide (c < 1/2)
  | none => false

/-- `OCRService._extractFieldValue` (ocrService.js 168–177): `null` for an
absent field or one blocked by the confidence guard, otherwise
`field.content || field.value || null`. -/
def extractFieldValue : Option FieldData → Option String
  | none => none
  | some f =>
    if confBlocks f.confidence then none
    else jsOrOpt f.content (jsOrOpt f.value none)

/-- `OCRService._extractReceiptData` (ocrService.js 137–162): take
`analyzeResult.documents[0]`; without a document or its `fields` the mock
record is returned; otherwise each output field is extracted with the
confidence guard and defaulted to `''`, and `confidence` is
`document.confidence || 0`.  (The surrounding `try`/`catch` in the JS has
no throwing path once property access is total, as it is here.) -/
def extractReceiptData (today : String) (r : OcrResult) : FieldRecord :=
  match r.analyzeResult with
  | none => mockData today
  | some ar =>
    match ar.documents with
    | none => mockData today
    | some docs =>
      match docs.head? with
      | none => mockData today
      | some doc =>
        match doc.fields with
        | none => mockData today
        | some fs =>
          { vendor := orEmptyStr (jsOrOpt (extractFieldValue fs.MerchantName)
                        (extractFieldValue fs.VendorName)),
            total := orEmptyStr (extractFieldValue fs.Total),
            transactionDate := orEmptyStr (extractFieldValue fs.TransactionDate),
            merchantAddress := orEmptyStr (extractFieldValue fs.MerchantAddress),
            merchantPhone := orEmptyStr (extractFieldValue fs.MerchantPhoneNumber),
            subtotal := orEmptyStr (extractFieldValue fs.Subtotal),
            tax := orEmptyStr (extractFieldValue fs.TotalTax),
            confidence := doc.confidence.getD 0 }

/-! ## The polling loop (ocrService.js 78–131)

`_pollForResults` is driven by the sequence of poll responses, supplied
here as `polls : ℕ → PollResp` (the response to the `attempt`-th poll),
and by the sequence of `Math.random() * 1000` jitter draws,
`jitter : ℕ → ℚ` (the draw made during loop iteration `a`).  Besides the
result the embedding returns the list of waits performed (the arguments
of the `_delay` calls, in milliseconds) and the number of poll attempts
made, so that the schedule itself is a provable object. -/

/-- One poll response: the request may throw / time out (`netError`), the
HTTP response may be non-ok (`notOk`), or a JSON payload is delivered. -/
inductive PollResp where
  | netError : String → PollResp
  | notOk : ℕ → PollResp
  | ok : OcrResult → PollResp
deriving DecidableEq, Repr

/-- Outcome of the body of one loop iteration (the `try` block). -/
inductive PollStepOut where
  | done : OcrResult → PollStepOut
  | cont : PollStepOut
  | err : String → PollStepOut
deriving DecidableEq, Repr

/-- The `try` block of one poll iteration (ocrService.js 90–117): a thrown
request or a non-ok response is an error; otherwise the `switch` on
`result.status` returns the result (`succeeded`), throws (`failed`,
unknown), or falls through to keep polling (`running`, `notStarted`). -/
def pollStep : PollResp → PollStepOut
  | .netError m => .err m
  | .notOk code => .err ("Poll request failed: " ++ toString code)
  | .ok r =>
    if r.status = "succeeded" then .done r
    else if r.status = "failed" then
      .err ("OCR analysis failed: " ++ r.errorMessage.getD "Unknown error")
    else if r.status = "running" ∨ r.status = "notStarted" then .cont
    else .err ("Unknown status: " ++ r.status)

/-- The delay update of ocrService.js 84–88: at iteration `a > 0` the loop
first waits the current `delay`, then sets
`delay = Math.min(delay * 1.2 + Math.random() * 1000, 10000)`; at
iteration 0 neither happens. -/
def nextDelay (jitter : ℕ → ℚ) (a : ℕ) (d : ℚ) : ℚ :=
  if a = 0 then d else min (d * (6/5) + jitter a) 10000

/-- Result of `_pollForResults`: the returned/thrown value, the waits
performed before each repoll (ms), and the number of poll attempts. -/
structure PollOut where
  result : Except String OcrResult
  waits : List ℚ
  attempts : ℕ
deriving Repr

/-- The polling loop of `_pollForResults` (ocrService.js 82–128),
unrolled on fuel `maxRetries - attempt`.  At each iteration: wait (except
at attempt 0), run the `try` block, and on an error *catch it*, rethrowing
only when `attempt === maxRetries - 1`; exhausting the loop throws the
timeout error. -/
def pollAux (polls : ℕ → PollResp) (jitter : ℕ → ℚ) (maxRetries : ℕ) :
    ℕ → ℚ → ℕ → PollOut
  | _, _, 0 => ⟨.error "OCR analysis timed out after maximum retries", [], 0⟩
  | a, d, fuel + 1 =>
    let ws : List ℚ := if a = 0 then [] else [d]
    let d2 := nextDelay jitter a d
    match pollStep (polls a) with
    | .done r => ⟨.ok r, ws, 1⟩
    | .cont =>
      let o := pollAux polls jitter maxRetries (a + 1) d2 fuel
      ⟨o.result, ws ++ o.waits, o.attempts + 1⟩
    | .err e =>
      if a = maxRetries - 1 then ⟨.error e, ws, 1⟩
      else
        let o := pollAux polls jitter maxRetries (a + 1) d2 fuel
        ⟨o.result, ws ++ o.waits, o.attempts + 1⟩

/-- `OCRService._pollForResults` with the constructor constants
`maxRetries = 12` and `pollInterval = 2000` (ocrService.js 11–12). -/
def pollForResults (polls : ℕ → PollResp) (jitter : ℕ → ℚ) : PollOut :=
  pollAux polls jitter 12 0 2000 12

/-- The value of the `delay` variable at the start of loop iteration `a`:
`2000` through iterations 0 and 1, then updated by `nextDelay` during each
iteration `a ≥ 1`. -/
def delayAt (jitter : ℕ → ℚ) : ℕ → ℚ
  | 0 => 2000
  | a + 1 => if a = 0 then 2000 else min (delayAt jitter a * (6/5) + jitter a) 10000

/-! ## `analyzeReceipt` (ocrService.js 21–72) -/

/-- The response of the start request of `_startAnalysis`: a thrown
request / file-read error, or an HTTP status together with the optional
`operation-location` header. -/
inductive StartOutcome where
  | netError : String → StartOutcome
  | status : ℕ → Option String → StartOutcome
deriving DecidableEq, Repr

/-- The external world as seen by one `analyzeReceipt` call. -/
structure OcrEnv where
  configured : Bool
  start : StartOutcome
  polls : ℕ → PollResp
  jitter : ℕ → ℚ
  today : String

/-- `OCRService._startAnalysis` (ocrService.js 46–72): a non-202 status or
missing `operation-location` header throws; otherwise the operation URL is
returned. -/
def startAnalysis (env : OcrEnv) : Except String String :=
  match env.start with
  | .netError m => .error m
  | .status code loc =>
    if code ≠ 202 then .error "Analysis start failed"
    else
      match loc with
      | none => .error "No operation location header received"
      | some u => .ok u

/-- The body of `analyzeReceipt`'s `try` block: start the analysis, then
poll the operation handle. -/
def analyzeRun (env : OcrEnv) : Except String OcrResult :=
  match startAnalysis env with
  | .error e => .error e
  | .ok _ => (pollForResults env.polls env.jitter).result

/-- `OCRService.analyzeReceipt` (ocrService.js 21–40), with its exception
behaviour explicit: an unconfigured service short-circuits to the mock
record, and the `catch` maps every internal failure to the mock record, so
every path is an `Except.ok`. -/
def analyzeReceiptE (env : OcrEnv) : Except String FieldRecord :=
  if ¬env.configured then .ok (mockData env.today)
  else
    match analyzeRun env with
    | .ok res => .ok (extractReceiptData env.today res)
    | .error _ => .ok (mockData env.today)

/-! ## POSIX paths and the batch-id check (server.js 456, 753–760)

`TMP_ROOT` is an absolute path; it is represented by its list of path
segments (each a `List Char`), and `path.resolve(TMP_ROOT, batchId)` by
segment normalization.  The `startsWith(TMP_ROOT + path.sep)` test is done
on the rendered character lists, exactly as JS compares the strings. -/

/-- Split a character list at `'/'` (the behaviour of splitting a POSIX
path string into its segments, keeping empty segments). -/
def splitSlashAux : List Char → List Char → List (List Char)
  | [], acc => [acc.reverse]
  | '/' :: rest, acc => acc.reverse :: splitSlashAux rest []
  | c :: rest, acc => splitSlashAux rest (c :: acc)

/-- All `'/'`-separated segments of a character list. -/
def splitSlash (l : List Char) : List (List Char) :=
  splitSlashAux l []

/-- Normalization step of POSIX path resolution: empty and `.` segments
vanish, `..` pops the last segment (staying at the root), anything else is
appended. -/
def normSegs (segs : List (List Char)) : List (List Char) :=
  segs.foldl
    (fun acc s =>
      if s = [] ∨ s = ['.'] then acc
      else if s = ['.', '.'] then acc.dropLast
      else acc ++ [s])
    []

/-- `path.resolve(root, p)` for an absolute `root` given by its segments:
an absolute `p` ignores `root`, otherwise `p`'s segments are appended and
the whole is normalized. -/
def pathResolve (root : List (List Char)) (p : String) : List (List Char) :=
  match p.data with
  | '/' :: rest => normSegs (splitSlash rest)
  | l => normSegs (root ++ splitSlash l)

/-- Render an absolute path from its segments
(`["a","b"] ↦ "/a/b"` as a character list). -/
def renderAbs (segs : List (List Char)) : List Char :=
  segs.foldl (fun acc s => acc ++ '/' :: s) []

/-- The test `path.resolve(TMP_ROOT, batchId).startsWith(TMP_ROOT + path.sep)`
of server.js 757–758. -/
def insideRoot (root : List (List Char)) (p : String) : Bool :=
  (renderAbs root ++ ['/']).isPrefixOf (renderAbs (pathResolve root p))

/-- `'0' ≤ c ≤ '9'`. -/
def isDigitCh (c : Char) : Bool :=
  48 ≤ c.toNat && c.toNat ≤ 57

/-- `c ∈ [a-z0-9]`. -/
def isLowerAlnumCh (c : Char) : Bool :=
  isDigitCh c || (97 ≤ c.toNat && c.toNat ≤ 122)

/-- `BATCH_ID_REGEX = /^batch-[0-9]+-[a-z0-9]+$/` (server.js 456) as a
character-list matcher: the literal prefix `batch-`, a non-empty maximal
digit run, a `-`, and a non-empty `[a-z0-9]` tail.  (Neither character
class matches `-`, so the maximal-run reading coincides with the
regex.) -/
def matchBatchIdChars : List Char → Bool
  | 'b' :: 'a' :: 't' :: 'c' :: 'h' :: '-' :: rest =>
    let ds := rest.takeWhile isDigitCh
    let r2 := rest.dropWhile isDigitCh
    !ds.isEmpty &&
      (match r2 with
       | '-' :: tail => !tail.isEmpty && tail.all isLowerAlnumCh
       | _ => false)
  | _ => false

/-- `BATCH_ID_REGEX.test` on a string. -/
def matchBatchId (s : String) : Bool :=
  matchBatchIdChars s.data

/-! ## The `/api/submit` handler (server.js 742–813) -/

/-- The parsed JSON body of a submit request: `fields` (an object given by
its entries, or absent), `signatureDataUrl` and `batchId`. -/
structure SubmitRequest where
  fields : Option (List (String × JVal))
  signatureDataUrl : Option String
  batchId : Option String

/-- External-world outcomes consumed by one submit request. -/
structure SubmitEnv where
  /-- `TENANT_ID && CLIENT_ID && CLIENT_SECRET` all present. -/
  graphCreds : Bool
  /-- the client-credentials token request succeeds. -/
  tokenOk : Bool
  /-- `SITE_ID && LIST_ID` both present. -/
  siteConfigured : Bool
  /-- the Graph create-item call succeeds. -/
  createOk : Bool
  /-- the id of the item Graph returns. -/
  graphItemId : String
  /-- `Date.now()` rendered, for the mock item id. -/
  nowStr : String
  /-- `fs.existsSync(src)` for the resolved batch path. -/
  batchExists : Bool
  /-- `readdir` of the moved batch directory. -/
  batchFiles : List String
  /-- the Graph attachment uploads succeed. -/
  attachOk : Bool

/-- HTTP responses the submit handler can produce. -/
inductive Resp where
  | okJson : String → Resp
  | badRequest : String → Resp
  | serverError : Resp
deriving DecidableEq, Repr

/-- Filesystem operations performed by the submit handler, in program
order.  `statBatch` and `renameBatchFromSrc` are the only operations whose
target is the batch path under `TMP_ROOT`; everything else targets the
per-request `tempBase` directory. -/
inductive FsOp where
  | mkdirTempBase
  | statBatch : List (List Char) → FsOp
  | mkdirTempBatchDir
  | renameBatchFromSrc : List (List Char) → FsOp
  | readdirTempBatchDir
  | readAttachment : String → FsOp
  | writeSignature
  | rmTempBase
deriving DecidableEq, Repr

/-- Does this operation touch the batch path under `TMP_ROOT`? -/
def isBatchPathOp : FsOp → Bool
  | .statBatch _ => true
  | .renameBatchFromSrc _ => true
  | _ => false

/-- `getGraphToken` (server.js 531–558): `null` when the credentials are
not configured, a token when the token request succeeds, a throw
otherwise.  The token value itself is irrelevant to the handler. -/
def getGraphToken (env : SubmitEnv) : Except String (Option Unit) :=
  if ¬env.graphCreds then .ok none
  else if env.tokenOk then .ok (some ()) else .error "Token request failed"

/-- `createListItem` (server.js 581–602): validate the fields first, then
either return a mock item (no token or no site/list configured), the Graph
item, or throw.  The second component records whether an external record
was actually created. -/
def createListItem (env : SubmitEnv) (token : Option Unit)
    (fields : List (String × JVal)) : Except String (String × Bool) :=
  match validateFields fields with
  | .error e => .error e
  | .ok _sanitized =>
    if token.isNone ∨ ¬env.siteConfigured then .ok ("mock-" ++ env.nowStr, false)
    else if env.createOk then .ok (env.graphItemId, true)
    else .error "Create item failed"

/-- Lines 748–751 of the handler: get a Graph token, then create the list
item from `fields || {}`. -/
def createPhase (env : SubmitEnv) (req : SubmitRequest) :
    Except String (Option Unit × String × Bool) :=
  match getGraphToken env with
  | .error e => .error e
  | .ok token =>
    match createListItem env token (req.fields.getD []) with
    | .error e => .error e
    | .ok (itemId, created) => .ok (token, itemId, created)

/-- `uploadAttachment` (server.js 620–640) for one file: a no-op without a
token or site/list configuration, otherwise a `readFile` followed by the
Graph call, which may throw.  Returns the filesystem trace and whether the
call succeeded (`false` = thrown). -/
def uploadAttachmentOps (env : SubmitEnv) (token : Option Unit)
    (name : String) : List FsOp × Bool :=
  if token.isSome && env.siteConfigured then
    ([.readAttachment name], env.attachOk)
  else ([], true)

/-- The sequential attachment loop of server.js 766–769: stops at the
first thrown upload. -/
def attachAll (env : SubmitEnv) (token : Option Unit) :
    List String → List FsOp × Bool
  | [] => ([], true)
  | n :: rest =>
    match uploadAttachmentOps env token n with
    | (ops, true) =>
      match attachAll env token rest with
      | (ops2, okRest) => (ops ++ ops2, okRest)
    | (ops, false) => (ops, false)

/-- The batch block of the handler (server.js 753–771).  Returns `(some
resp, trace)` when the handler responds (or throws, mapped to 500 by the
`catch`) inside the block, `(none, trace)` when execution falls through to
the signature block.  An absent or empty (falsy) `batchId` skips the block
entirely; a malformed or escaping id is rejected before `existsSync`. -/
def batchBlock (root : List (List Char)) (env : SubmitEnv)
    (token : Option Unit) (req : SubmitRequest) : Option Resp × List FsOp :=
  match req.batchId with
  | none => (none, [])
  | some b =>
    if b = "" then (none, [])
    else if ¬matchBatchId b then (some (.badRequest "Invalid batchId"), [])
    else
      let src := pathResolve root b
      if ¬insideRoot root b then (some (.badRequest "Invalid batchId"), [])
      else if env.batchExists then
        match attachAll env token env.batchFiles with
        | (aops, true) =>
          (none, [.statBatch src, .mkdirTempBatchDir, .renameBatchFromSrc src,
                  .readdirTempBatchDir] ++ aops)
        | (aops, false) =>
          (some .serverError, [.statBatch src, .mkdirTempBatchDir,
                               .renameBatchFromSrc src, .readdirTempBatchDir] ++ aops)
      else (none, [.statBatch src])

/-- The characters JS regex `.` does not match. -/
def jsDotExcluded : List Char :=
  ['\n', '\r', Char.ofNat 8232, Char.ofNat 8233]

/-- The match `signatureDataUrl.match(/^data:image\/png;base64,(.+)$/)`
(server.js 774): the literal prefix, then a non-empty payload containing
no line terminators. -/
def pngPayload (s : String) : Option String :=
  if "data:image/png;base64,".data.isPrefixOf s.data then
    let rest := s.data.drop 22
    if rest ≠ [] ∧ rest.all (fun c => !jsDotExcluded.contains c) then
      some (String.mk rest)
    else none
  else none

/-- The signature block of the handler (server.js 773–791), parameterized
by `b64len`, the byte length of `Buffer.from(payload, "base64")` (the
base64 decoder itself is not re-implemented; every theorem below holds for
every decoder).  A falsy `signatureDataUrl` skips the block; a payload
failing the regex, decoding to zero bytes, or exceeding 100 KiB responds
400 before any write; otherwise the scratch file is written under
`tempBase` and uploaded. -/
def sigBlock (b64len : String → ℕ) (env : SubmitEnv) (token : Option Unit)
    (req : SubmitRequest) : Option Resp × List FsOp :=
  match req.signatureDataUrl with
  | none => (none, [])
  | some s =>
    if s = "" then (none, [])
    else
      match pngPayload s with
      | none => (some (.badRequest "Invalid signature"), [])
      | some payload =>
        let n := b64len payload
        if n = 0 ∨ n > 102400 then (some (.badRequest "Invalid signature"), [])
        else
          match uploadAttachmentOps env token "signature.png" with
          | (ops, true) => (none, .writeSignature :: ops)
          | (ops, false) => (some .serverError, .writeSignature :: ops)

/-- The `try` block of the submit handler (server.js 746–793): create
phase, batch block, signature block, then the `{ ok: true, itemId }`
response; a throw anywhere is the `catch`'s 500.  Returns the response,
the filesystem trace of the block, and whether an external record was
created. -/
def tryBody (b64len : String → ℕ) (root : List (List Char)) (env : SubmitEnv)
    (req : SubmitRequest) : Resp × List FsOp × Bool :=
  match createPhase env req with
  | .error _ => (.serverError, [], false)
  | .ok (token, itemId, created) =>
    match batchBlock root env token req with
    | (some r, ops) => (r, ops, created)
    | (none, ops) =>
      match sigBlock b64len env token req with
      | (some r, ops2) => (r, ops ++ ops2, created)
      | (none, ops2) => (.okJson itemId, ops ++ ops2, created)

/-- Everything the submit handler does and returns. -/
structure SubmitOut where
  resp : Resp
  ops : List FsOp
  recordCreated : Bool
  cleanupLogged : Bool
deriving Repr

/-- The whole `/api/submit` handler (server.js 742–813): create `tempBase`
(line 745, before the `try`), run the `try`/`catch` body, and in the
`finally` always remove `tempBase` recursively — the moved batch directory
and the signature scratch file both live under it.  `cleanupOk` is whether
that `rm` succeeds; a failure is only logged (`cleanupLogged`) after the
response is already determined. -/
def submitHandler (b64len : String → ℕ) (root : List (List Char))
    (env : SubmitEnv) (cleanupOk : Bool) (req : SubmitRequest) : SubmitOut :=
  let t := tryBody b64len root env req
  { resp := t.1,
    ops := .mkdirTempBase :: (t.2.1 ++ [.rmTempBase]),
    recordCreated := t.2.2,
    cleanupLogged := !cleanupOk }

/-! ## Upload-side batch-id generation (server.js 670) -/

/-- The 36 digit characters of JavaScript `Number.prototype.toString(36)`. -/
def BASE36_CHARS : List Char :=
  "0123456789abcdefghijklmnopqrstuvwxyz".data

/-- The character of digit `d` (`0 ↦ '0'`, …, `35 ↦ 'z'`). -/
def digitCh (d : ℕ) : Char :=
  BASE36_CHARS.getD d '0'

/-- Base-10 digits of `n`, least significant first, with structural fuel
(`fuel ≥ number of digits` as soon as `fuel ≥ n ≥ 1`). -/
def decCharsRev (fuel n : ℕ) : List Char :=
  match fuel with
  | 0 => []
  | f + 1 => if n = 0 then [] else digitCh (n % 10) :: decCharsRev f (n / 10)

/-- The decimal rendering of `Date.now()` inside a template literal:
`(0).toString()` is `"0"`, otherwise the base-10 digits most significant
first. -/
def decimalChars (n : ℕ) : List Char :=
  if n = 0 then ['0'] else (decCharsRev n n).reverse

/-- `Math.random().toString(36).slice(2)`: for a draw in `[0, 1)` the
base-36 rendering is `"0"` (draw exactly 0, `frac = []`) or `"0." +
digits`, and `slice(2)` keeps exactly the fractional digits.  The draw is
represented by that digit list. -/
def randSuffixChars (frac : List (Fin 36)) : List Char :=
  frac.map (fun d => digitCh d.val)

/-- The upload handler's
`` `batch-${Date.now()}-${Math.random().toString(36).slice(2)}` ``
(server.js 670). -/
def genBatchId (ts : ℕ) (frac : List (Fin 36)) : String :=
  "batch-" ++ String.mk (decimalChars ts) ++ "-" ++ String.mk (randSuffixChars frac)

/-! ## The secure-upload file filter (secureUpload.js) -/

/-- What multer hands to `fileFilter` about one incoming file. -/
structure UploadFile where
  originalname : String
  mimetype : String
deriving DecidableEq, Repr

/-- `ALLOWED_EXTENSIONS` (secureUpload.js 14). -/
def ALLOWED_EXTENSIONS : List String :=
  [".jpg", ".jpeg", ".png", ".gif", ".pdf"]

/-- `ALLOWED_MIME_TYPES` (secureUpload.js 15–20). -/
def ALLOWED_MIME_TYPES : List String :=
  ["image/jpeg", "image/png", "image/gif", "application/pdf"]

/-- In a basename (no slashes), the suffix starting at the last `'.'`, or
`[]` when there is none.  Applied to the tail of the basename so that a
leading dot never counts. -/
def dotSuffix : List Char → List Char
  | [] => []
  | '.' :: rest =>
    match dotSuffix rest with
    | [] => '.' :: rest
    | s => s
  | _ :: rest => dotSuffix rest

/-- Strip trailing `'/'` characters, as Node's path parsing does. -/
def stripTrailingSlashes (l : List Char) : List Char :=
  (l.reverse.dropWhile (fun c => c = '/')).reverse

/-- Node `path.extname` (POSIX): on the basename (the part after the last
`'/'`, trailing slashes ignored) the extension runs from the last `'.'`
that is not the leading character; a basename of exactly `".."` and
dot-less or leading-dot-only basenames have no extension. -/
def extnameChars (l : List Char) : List Char :=
  let base := (splitSlash (stripTrailingSlashes l)).getLastD []
  if base = ['.', '.'] then []
  else
    match base with
    | [] => []
    | _ :: rest => dotSuffix rest

/-- ASCII lower-casing of one character (all the characters an extension
comparison can meet). -/
def toLowerCh (c : Char) : Char :=
  if 65 ≤ c.toNat && c.toNat ≤ 90 then Char.ofNat (c.toNat + 32) else c

/-- `path.extname(originalname).toLowerCase()` (secureUpload.js 37). -/
def extnameLower (name : String) : String :=
  String.mk ((extnameChars name.data).map toLowerCh)

/-- `sanitizeFilename` (secureUpload.js 31–45), reduced to its decision:
the stored name is a fresh UUID plus the validated extension, so only the
extension matters; an extension outside the allow-list throws.  Returns
the extension used for the generated storage name. -/
def sanitizeFilenameExt (originalname : String) : Except String String :=
  let ext := extnameLower originalname
  if ALLOWED_EXTENSIONS.contains ext then .ok ext
  else .error ("File type " ++ ext ++ " not allowed")

/-- The multer `fileFilter` (secureUpload.js 65–78): reject a MIME type
outside the allow-list, then run `sanitizeFilename`; any throw is passed
to `cb(error, false)`, i.e. the file (and with it the request) is
rejected.  `Except.ok ext` means the file is accepted with storage name
`uuid + ext`. -/
def fileFilter (f : UploadFile) : Except String String :=
  if ALLOWED_MIME_TYPES.contains f.mimetype then sanitizeFilenameExt f.originalname
  else .error "File type not allowed"

/-- Does `pat` occur as a contiguous sublist of the list? -/
def hasSubChars (pat : List Char) : List Char → Bool
  | [] => pat.isEmpty
  | c :: rest => pat.isPrefixOf (c :: rest) || hasSubChars pat rest

/-- Does the string contain `../` or `..\`? -/
def hasParentSeg (s : String) : Bool :=
  hasSubChars "../".data s.data || hasSubChars "..\\".data s.data

/-! ## Helper lemmas -/

set_option maxRecDepth 8192

/-- The last element of `l ++ [a]` is `a`. -/
theorem getLast?_append_singleton {α : Type} (l : List α) (a : α) :
    (l ++ [a]).getLast? = some a := by
  rw [List.getLast?_append_cons]
  rfl

/-- Every type the schema prescribes is `"string"`. -/
theorem schema_types_are_string (k s : String)
    (h : List.lookup k FIELD_SCHEMA = some s) : s = "string" := by
  simp only [FIELD_SCHEMA, List.lookup] at h
  repeat' split at h
  all_goals simp_all

/-- A bad entry anywhere in the list makes `validateFields` throw. -/
theorem validateFields_error_of_bad (l : List (String × JVal)) (k : String)
    (v : JVal) (hmem : (k, v) ∈ l)
    (hbad : List.lookup k FIELD_SCHEMA = none ∨ jsTypeof v ≠ "string") :
    ∃ e, validateFields l = .error e := by
  induction l with
  | nil => cases hmem
  | cons hd tl ih =>
    obtain ⟨k0, v0⟩ := hd
    rcases List.mem_cons.mp hmem with heq | hmem2
    · injection heq with hk hv
      subst hk
      subst hv
      rcases hbad with hnone | hty
      · exact ⟨"Invalid field: " ++ k, by simp only [validateFields, hnone]⟩
      · cases hlk : List.lookup k FIELD_SCHEMA with
        | none => exact ⟨"Invalid field: " ++ k, by simp only [validateFields, hlk]⟩
        | some s =>
          have hs := schema_types_are_string k s hlk
          subst hs
          refine ⟨"Invalid type for " ++ k ++ ": expected " ++ "string", ?_⟩
          simp only [validateFields, hlk]
          rw [if_pos hty]
    · simp only [validateFields]
      cases hlk : List.lookup k0 FIELD_SCHEMA with
      | none => exact ⟨_, rfl⟩
      | some expected =>
        dsimp only
        by_cases hty : jsTypeof v0 ≠ expected
        · rw [if_pos hty]
          exact ⟨_, rfl⟩
        · rw [if_neg hty]
          obtain ⟨e, he⟩ := ih hmem2
          rw [he]
          exact ⟨e, rfl⟩

/-- The three possible filesystem traces of the signature block. -/
theorem sigBlock_ops_cases (b64len : String → ℕ) (env : SubmitEnv)
    (token : Option Unit) (req : SubmitRequest) :
    (sigBlock b64len env token req).2 = [] ∨
    (sigBlock b64len env token req).2 = [.writeSignature] ∨
    (sigBlock b64len env token req).2 =
      [.writeSignature, .readAttachment "signature.png"] := by
  unfold sigBlock uploadAttachmentOps
  repeat' split
  all_goals try simp_all
  all_goals repeat' split
  all_goals try simp_all
  all_goals (split_ifs at * <;> simp_all)

/-- The operations of the signature block never touch the batch path. -/
theorem sigBlock_no_batch_op (b64len : String → ℕ) (env : SubmitEnv)
    (token : Option Unit) (req : SubmitRequest) :
    ∀ op ∈ (sigBlock b64len env token req).2, isBatchPathOp op = false := by
  intro op hop
  rcases sigBlock_ops_cases b64len env token req with h | h | h
  · rw [h] at hop
    cases hop
  · rw [h] at hop
    rcases List.mem_singleton.mp hop with rfl
    rfl
  · rw [h] at hop
    rcases List.mem_cons.mp hop with rfl | h2
    · rfl
    · rcases List.mem_singleton.mp h2 with rfl
      rfl

/-! ## C4 — submit cleanup always runs and never disturbs the response -/

/-- **C4.** For every submission request to `/api/submit`, the final
cleanup phase runs whether the preceding steps succeeded or raised: the
very last filesystem operation of the handler is always the recursive
removal of the per-request `tempBase` directory (under which both the
moved batch directory and the signature scratch file live), and a cleanup
failure is only logged — the response is identical whether cleanup
succeeds or fails. -/
theorem submit_cleanup_always_runs (b64len : String → ℕ)
    (root : List (List Char)) (env : SubmitEnv) (req : SubmitRequest) :
    ((submitHandler b64len root env true req).ops.getLast? = some FsOp.rmTempBase ∧
     (submitHandler b64len root env false req).ops.getLast? = some FsOp.rmTempBase) ∧
    (submitHandler b64len root env true req).resp =
      (submitHandler b64len root env false req).resp ∧
    (submitHandler b64len root env false req).cleanupLogged = true := by
  refine ⟨⟨?_, ?_⟩, rfl, rfl⟩
  all_goals
    show (FsOp.mkdirTempBase ::
      ((tryBody b64len root env req).2.1 ++ [FsOp.rmTempBase])).getLast? =
      some FsOp.rmTempBase
  all_goals rw [← List.cons_append, getLast?_append_singleton]

/-- When `validateFields` throws on the request's fields, the submit
handler answers 500 and creates no record, whatever else the environment
does. -/
theorem submit_of_validateFields_error (b64len : String → ℕ)
    (root : List (List Char)) (env : SubmitEnv) (cleanupOk : Bool)
    (req : SubmitRequest) (e : String)
    (he : validateFields (req.fields.getD []) = .error e) :
    (submitHandler b64len root env cleanupOk req).resp = .serverError ∧
    (submitHandler b64len root env cleanupOk req).recordCreated = false := by
  have hcp : ∃ e2, createPhase env req = .error e2 := by
    unfold createPhase
    cases hg : getGraphToken env with
    | error e2 => exact ⟨e2, rfl⟩
    | ok token =>
      unfold createListItem
      rw [he]
      exact ⟨e, rfl⟩
  obtain ⟨e2, he2⟩ := hcp
  have ht : tryBody b64len root env req = (.serverError, [], false) := by
    unfold tryBody
    rw [he2]
  constructor
  · show (tryBody b64len root env req).1 = Resp.serverError
    rw [ht]
  · show (tryBody b64len root env req).2.2 = false
    rw [ht]

/-! ## C5 — unknown or ill-typed fields reject the submission -/

/-- **C5.** For every submission whose fields map contains a key outside
the closed schema `{vendor, total, transactionDate, merchantAddress,
merchantPhone, subtotal, tax}`, or a non-string value for a known key, the
whole submission is rejected (`validateFields` throws before the Graph
call, so the handler answers 500) and no external record is created. -/
theorem submit_rejects_bad_fields (b64len : String → ℕ)
    (root : List (List Char)) (env : SubmitEnv) (cleanupOk : Bool)
    (req : SubmitRequest) (k : String) (v : JVal)
    (hmem : (k, v) ∈ req.fields.getD [])
    (hbad : List.lookup k FIELD_SCHEMA = none ∨ jsTypeof v ≠ "string") :
    (submitHandler b64len root env cleanupOk req).resp = .serverError ∧
    (submitHandler b64len root env cleanupOk req).recordCreated = false := by
  obtain ⟨e, he⟩ := validateFields_error_of_bad _ k v hmem hbad
  exact submit_of_validateFields_error b64len root env cleanupOk req e he

/-- **C5 witness.**  A concrete fully-configured environment and a request
whose fields contain the unknown key `hack`: the submission answers 500
and creates no record. -/
theorem submit_rejects_bad_fields_witness :
    (submitHandler (fun _ => 50) [".tmp".data]
      { graphCreds := true, tokenOk := true, siteConfigured := true,
        createOk := true, graphItemId := "item1", nowStr := "99",
        batchExists := true, batchFiles := ["a.jpg"], attachOk := true }
      true ⟨some [("hack", .str "x")], none, none⟩).resp = .serverError ∧
    (submitHandler (fun _ => 50) [".tmp".data]
      { graphCreds := true, tokenOk := true, siteConfigured := true,
        createOk := true, graphItemId := "item1", nowStr := "99",
        batchExists := true, batchFiles := ["a.jpg"], attachOk := true }
      true ⟨some [("hack", .str "x")], none, none⟩).recordCreated = false :=
  submit_rejects_bad_fields (fun _ => 50) [".tmp".data] _ true
    ⟨some [("hack", .str "x")], none, none⟩ "hack" (.str "x")
    (by simp) (Or.inl (by decide))

/-! ## Shared concrete environment for witnesses and counterexamples -/

/-- A fully configured, fully succeeding submit environment. -/
def envAllOk : SubmitEnv :=
  { graphCreds := true, tokenOk := true, siteConfigured := true,
    createOk := true, graphItemId := "item1", nowStr := "99",
    batchExists := true, batchFiles := ["a.jpg"], attachOk := true }

/-- A concrete batch root, standing for the server's `TMP_ROOT`. -/
def tmpRootSegs : List (List Char) :=
  ["srv".data, ".tmp".data]

/-! ## C6 — the analysis output does not round-trip through submission -/

/-- Every field record of the `_extractReceiptData` shape fails
`validateFields` at its `confidence` key (the first seven entries pass,
the eighth key is outside `FIELD_SCHEMA`). -/
theorem validateFields_fieldRecordEntries (rec : FieldRecord) :
    validateFields (fieldRecordEntries rec) =
      .error "Invalid field: confidence" := rfl

/-- **C6.**  The round-trip fails: a `FieldRecord` produced by
`_extractReceiptData` (from any analysis result, the succeeded ones
included) always carries the extra `confidence` key, so submitting it
unchanged as the fields map of `/api/submit` is rejected by the field
schema with `Invalid field: confidence` — the handler answers 500 and no
record with those values is created. -/
theorem roundtrip_of_extracted_record_fails (today : String) (r : OcrResult)
    (b64len : String → ℕ) (root : List (List Char)) (env : SubmitEnv)
    (cleanupOk : Bool) :
    validateFields (fieldRecordEntries (extractReceiptData today r)) =
      .error "Invalid field: confidence" ∧
    (submitHandler b64len root env cleanupOk
      ⟨some (fieldRecordEntries (extractReceiptData today r)), none, none⟩).resp =
      .serverError ∧
    (submitHandler b64len root env cleanupOk
      ⟨some (fieldRecordEntries (extractReceiptData today r)), none, none⟩).recordCreated =
      false := by
  refine ⟨validateFields_fieldRecordEntries _, ?_, ?_⟩
  all_goals
    have h := submit_of_validateFields_error b64len root env cleanupOk
      ⟨some (fieldRecordEntries (extractReceiptData today r)), none, none⟩
      "Invalid field: confidence" (validateFields_fieldRecordEntries _)
  · exact h.1
  · exact h.2

/-! ## C1 — invalid batch ids and the submit handler -/

/-- **C1 (amended).**  For every submission request whose `batchId` fails
the `BATCH_ID_REGEX` pattern or whose resolved path does not stay strictly
inside the batch root, the handler performs no filesystem operation on the
batch path at all; and whenever the id is non-empty (JS-truthy) and the
preceding field-validation/record-creation step completed without
throwing, the response is HTTP 400 `Invalid batchId`. -/
theorem submit_invalid_batchId_rejected (b64len : String → ℕ)
    (root : List (List Char)) (env : SubmitEnv) (cleanupOk : Bool)
    (req : SubmitRequest) (b : String) (hb : req.batchId = some b)
    (hbad : ¬(matchBatchId b = true ∧ insideRoot root b = true)) :
    (∀ op ∈ (submitHandler b64len root env cleanupOk req).ops,
        isBatchPathOp op = false) ∧
    (b ≠ "" →
      ∀ tok itemId created,
        createPhase env req = .ok (tok, itemId, created) →
        (submitHandler b64len root env cleanupOk req).resp =
          .badRequest "Invalid batchId") := by
  cases hcp : createPhase env req with
  | error e =>
    have ht : tryBody b64len root env req = (.serverError, [], false) := by
      unfold tryBody
      rw [hcp]
    constructor
    · intro op hop
      have hops : (submitHandler b64len root env cleanupOk req).ops =
          [FsOp.mkdirTempBase, FsOp.rmTempBase] := by
        show FsOp.mkdirTempBase ::
          ((tryBody b64len root env req).2.1 ++ [FsOp.rmTempBase]) = _
        rw [ht]
        rfl
      rw [hops] at hop
      rcases List.mem_cons.mp hop with rfl | h2
      · rfl
      · rcases List.mem_singleton.mp h2 with rfl
        rfl
    · intro _ tok itemId created hok
      exact Except.noConfusion hok
  | ok tic =>
    obtain ⟨tok, itemId, created⟩ := tic
    by_cases hne : b = ""
    · subst hne
      have hbb : batchBlock root env tok req = (none, []) := by
        unfold batchBlock
        rw [hb]
        simp
      have ht21 : (tryBody b64len root env req).2.1 =
          (sigBlock b64len env tok req).2 := by
        unfold tryBody
        rw [hcp]
        dsimp only
        rw [hbb]
        cases hsb : sigBlock b64len env tok req with
        | mk o ops2 => cases o <;> simp
      constructor
      · intro op hop
        have hops : (submitHandler b64len root env cleanupOk req).ops =
            FsOp.mkdirTempBase ::
              ((sigBlock b64len env tok req).2 ++ [FsOp.rmTempBase]) := by
          show FsOp.mkdirTempBase ::
            ((tryBody b64len root env req).2.1 ++ [FsOp.rmTempBase]) = _
          rw [ht21]
        rw [hops] at hop
        rcases List.mem_cons.mp hop with rfl | h2
        · rfl
        · rcases List.mem_append.mp h2 with h3 | h3
          · exact sigBlock_no_batch_op b64len env tok req op h3
          · rcases List.mem_singleton.mp h3 with rfl
            rfl
      · intro hne2
        exact absurd rfl hne2
    · have hbb : batchBlock root env tok req =
          (some (.badRequest "Invalid batchId"), []) := by
        unfold batchBlock
        rw [hb]
        dsimp only
        rw [if_neg hne]
        cases hm : matchBatchId b with
        | false => simp [hm]
        | true =>
          have hin : insideRoot root b = false := by
            cases hin2 : insideRoot root b with
            | true => exact absurd ⟨hm, hin2⟩ hbad
            | false => rfl
          simp [hm, hin]
      have ht : tryBody b64len root env req =
          (.badRequest "Invalid batchId", [], created) := by
        unfold tryBody
        rw [hcp]
        dsimp only
        rw [hbb]
      constructor
      · intro op hop
        have hops : (submitHandler b64len root env cleanupOk req).ops =
            [FsOp.mkdirTempBase, FsOp.rmTempBase] := by
          show FsOp.mkdirTempBase ::
            ((tryBody b64len root env req).2.1 ++ [FsOp.rmTempBase]) = _
          rw [ht]
          rfl
        rw [hops] at hop
        rcases List.mem_cons.mp hop with rfl | h2
        · rfl
        · rcases List.mem_singleton.mp h2 with rfl
          rfl
      · intro _ tok2 itemId2 created2 hok
        show (tryBody b64len root env req).1 = _
        rw [ht]

/-- **C1 witness.**  With everything else succeeding, the batch id `../x`
(which fails the pattern) is answered with 400 `Invalid batchId`. -/
theorem submit_invalid_batchId_rejected_witness :
    (submitHandler (fun _ => 0) tmpRootSegs envAllOk true
      ⟨some [], none, some "../x"⟩).resp = .badRequest "Invalid batchId" :=
  (submit_invalid_batchId_rejected (fun _ => 0) tmpRootSegs envAllOk true
    ⟨some [], none, some "../x"⟩ "../x" rfl (by decide)).2
    (by decide) (some ()) "item1" true rfl

/-- **C1 counterexample (to the unamended claim).**  A request carrying
the malformed batch id `../x` *and* an unknown field key is answered 500
(the field-validation throw wins), not 400 `Invalid batchId`; so the claim
"every request with a malformed batchId is rejected with HTTP 400
`Invalid batchId`" is false as stated, even though no batch-path
filesystem operation happens. -/
theorem submit_invalid_batchId_counterexample :
    matchBatchId "../x" = false ∧
    (submitHandler (fun _ => 0) tmpRootSegs envAllOk true
      ⟨some [("evil", JVal.str "x")], none, some "../x"⟩).resp = .serverError ∧
    (submitHandler (fun _ => 0) tmpRootSegs envAllOk true
      ⟨some [("evil", JVal.str "x")], none, some "../x"⟩).resp ≠
      .badRequest "Invalid batchId" := by
  have h1 : (submitHandler (fun _ => 0) tmpRootSegs envAllOk true
      ⟨some [("evil", JVal.str "x")], none, some "../x"⟩).resp =
      Resp.serverError := by decide
  refine ⟨by decide, h1, ?_⟩
  rw [h1]
  intro h
  exact Resp.noConfusion h

/-! ## C2 — `analyzeReceipt` never throws; its fallback is the demo record -/

/-- **C2 (amended).**  `analyzeReceipt` never throws to its caller: every
path produces an `Except.ok`.  On any internal failure (start response not
accepted, missing operation handle, poll failure, exhausted attempts —
i.e. whenever the start-and-poll run throws) it returns `_getMockData()`,
the fixed demo record.  That fallback carries *no* error marker and
non-empty demo values (the error-marked all-empty record is built only by
the upload route's `catch`, which this no-throw contract makes
unreachable for OCR failures). -/
theorem analyzeReceipt_never_throws (env : OcrEnv) :
    (∃ r, analyzeReceiptE env = .ok r) ∧
    (∀ e, analyzeRun env = .error e →
      analyzeReceiptE env = .ok (mockData env.today)) ∧
    (mockData env.today).vendor = "Demo Store" ∧
    List.lookup "error" (fieldRecordEntries (mockData env.today)) = none := by
  refine ⟨?_, ?_, rfl, rfl⟩
  · unfold analyzeReceiptE
    split
    · exact ⟨_, rfl⟩
    · split
      · exact ⟨_, rfl⟩
      · exact ⟨_, rfl⟩
  · intro e he
    unfold analyzeReceiptE
    split
    · rfl
    · rw [he]

/-- **C2 witness.**  A configured service whose start request is answered
with HTTP 500: `analyzeReceipt` returns the demo record instead of
throwing. -/
theorem analyzeReceipt_never_throws_witness :
    analyzeReceiptE ⟨true, .status 500 none, fun _ => .ok ⟨"running", none, none⟩,
      fun _ => 0, "2024-01-01"⟩ = .ok (mockData "2024-01-01") :=
  (analyzeReceipt_never_throws ⟨true, .status 500 none,
    fun _ => .ok ⟨"running", none, none⟩, fun _ => 0, "2024-01-01"⟩).2.1
    "Analysis start failed" rfl

/-- **C2 counterexample (to the unamended claim).**  On the same failing
start, the returned record is the demo record: its vendor is the
non-empty string `Demo Store` and it has no `error` key — not an
error-marked record with empty string values for every field. -/
theorem analyzeReceipt_degraded_record_counterexample :
    analyzeReceiptE ⟨true, .status 500 none, fun _ => .ok ⟨"running", none, none⟩,
      fun _ => 0, "2024-01-01"⟩ = .ok (mockData "2024-01-01") ∧
    (mockData "2024-01-01").vendor = "Demo Store" ∧
    (mockData "2024-01-01").vendor ≠ "" ∧
    List.lookup "error" (fieldRecordEntries (mockData "2024-01-01")) = none := by
  refine ⟨rfl, rfl, by decide, rfl⟩

/-! ## C7 — the confidence threshold in field extraction -/

/-- **C7 (amended).**  For every structured field whose reported
confidence is *truthy* (non-zero) and below the `0.5` threshold,
`_extractFieldValue` returns `null`, and the corresponding entry of the
extracted record (here: `total`, read from the single source field
`Total`) is the empty string — not an error. -/
theorem low_confidence_treated_absent (f : FieldData) (c : ℚ)
    (hc : f.confidence = some c) (hc0 : c ≠ 0) (hlt : c < 1/2) :
    extractFieldValue (some f) = none ∧
    (∀ (today : String) (r : OcrResult) (ar : AnalyzeResult)
       (docs : List OcrDocument) (doc : OcrDocument) (fs : DocFields),
      r.analyzeResult = some ar → ar.documents = some docs →
      docs.head? = some doc → doc.fields = some fs → fs.Total = some f →
      (extractReceiptData today r).total = "") := by
  have hblock : confBlocks f.confidence = true := by
    rw [hc]
    unfold confBlocks
    simp only [Bool.and_eq_true, decide_eq_true_eq]
    exact ⟨hc0, hlt⟩
  have hefv : extractFieldValue (some f) = none := by
    unfold extractFieldValue
    dsimp only
    rw [hblock]
    simp
  refine ⟨hefv, ?_⟩
  intro today r ar docs doc fs h1 h2 h3 h4 h5
  unfold extractReceiptData
  rw [h1]
  dsimp only
  rw [h2]
  dsimp only
  rw [h3]
  dsimp only
  rw [h4]
  dsimp only
  rw [h5, hefv]
  rfl

/-- **C7 witness.**  A `Total` field with confidence `1/4` and content
`88.8`: the extracted value is `null` and the record's `total` entry is
the empty string. -/
theorem low_confidence_treated_absent_witness :
    extractFieldValue (some ⟨some (1/4), some "88.8", none⟩) = none ∧
    (extractReceiptData "2024-01-01"
      ⟨"succeeded", none, some ⟨some [⟨some
        ⟨none, none, some ⟨some (1/4), some "88.8", none⟩,
         none, none, none, none, none⟩, some 1⟩]⟩⟩).total = "" := by
  have h := low_confidence_treated_absent ⟨some (1/4), some "88.8", none⟩ (1/4)
    rfl (by norm_num) (by norm_num)
  exact ⟨h.1, h.2 "2024-01-01" _ _ _ _
    ⟨none, none, some ⟨some (1/4), some "88.8", none⟩,
     none, none, none, none, none⟩ rfl rfl rfl rfl rfl⟩

/-- **C7 counterexample (to the unamended claim).**  A reported
confidence of exactly `0` is below the threshold, yet the guard
`field.confidence && field.confidence < 0.5` is skipped (JS `0` is falsy)
and the content is extracted: the record's `total` becomes `99.99`, not
the empty string. -/
theorem low_confidence_counterexample :
    ((0 : ℚ) < 1/2) ∧
    extractFieldValue (some ⟨some 0, some "99.99", none⟩) = some "99.99" ∧
    (extractReceiptData "2024-01-01"
      ⟨"succeeded", none, some ⟨some [⟨some
        ⟨none, none, some ⟨some 0, some "99.99", none⟩,
         none, none, none, none, none⟩, some 1⟩]⟩⟩).total = "99.99" := by
  refine ⟨by norm_num, ?_, ?_⟩
  · unfold extractFieldValue confBlocks
    norm_num [jsOrOpt]
    intro h
    exact absurd h (by decide)
  · unfold extractReceiptData
    dsimp only
    unfold extractFieldValue confBlocks
    norm_num [jsOrOpt, orEmptyStr]
    rw [if_neg (show ¬("99.99" = "") by decide)]

/-! ## C3 — how poll statuses drive the loop -/

/-- A `succeeded` payload makes the iteration body return the result. -/
theorem pollStep_succeeded (r : OcrResult) (h : r.status = "succeeded") :
    pollStep (.ok r) = .done r := by
  unfold pollStep
  dsimp only
  rw [h]
  rw [if_pos rfl]

/-- A `running` payload makes the iteration body fall through. -/
theorem pollStep_running (r : OcrResult) (h : r.status = "running") :
    pollStep (.ok r) = .cont := by
  unfold pollStep
  dsimp only
  rw [h]
  rw [if_neg (by decide), if_neg (by decide), if_pos (Or.inl rfl)]

/-- A `notStarted` payload makes the iteration body fall through. -/
theorem pollStep_notStarted (r : OcrResult) (h : r.status = "notStarted") :
    pollStep (.ok r) = .cont := by
  unfold pollStep
  dsimp only
  rw [h]
  rw [if_neg (by decide), if_neg (by decide), if_pos (Or.inr rfl)]

/-- A `failed` payload makes the iteration body throw the OCR error. -/
theorem pollStep_failed (r : OcrResult) (h : r.status = "failed") :
    pollStep (.ok r) =
      .err ("OCR analysis failed: " ++ r.errorMessage.getD "Unknown error") := by
  unfold pollStep
  dsimp only
  rw [h]
  rw [if_neg (by decide), if_pos rfl]

/-- Any other status makes the iteration body throw `Unknown status`. -/
theorem pollStep_unknown (r : OcrResult) (h1 : r.status ≠ "succeeded")
    (h2 : r.status ≠ "failed") (h3 : r.status ≠ "running")
    (h4 : r.status ≠ "notStarted") :
    pollStep (.ok r) = .err ("Unknown status: " ++ r.status) := by
  unfold pollStep
  dsimp only
  rw [if_neg h1, if_neg h2, if_neg (fun hor => hor.elim h3 h4)]

/-- One unfolding of the polling loop at positive fuel. -/
theorem pollAux_succ (polls : ℕ → PollResp) (jitter : ℕ → ℚ) (maxR a : ℕ)
    (d : ℚ) (f : ℕ) :
    pollAux polls jitter maxR a d (f + 1) =
      match pollStep (polls a) with
      | .done r => ⟨.ok r, if a = 0 then [] else [d], 1⟩
      | .cont =>
        let o := pollAux polls jitter maxR (a + 1) (nextDelay jitter a d) f
        ⟨o.result, (if a = 0 then [] else [d]) ++ o.waits, o.attempts + 1⟩
      | .err e =>
        if a = maxR - 1 then ⟨.error e, if a = 0 then [] else [d], 1⟩
        else
          let o := pollAux polls jitter maxR (a + 1) (nextDelay jitter a d) f
          ⟨o.result, (if a = 0 then [] else [d]) ++ o.waits, o.attempts + 1⟩ := rfl

/-- **C3 (amended).**  At any live iteration `a` of the polling loop (fuel
matching `_pollForResults`' 12-attempt budget): a `succeeded` status stops
polling with the result; `running`/`notStarted` continue polling; but
`failed` and unrecognized statuses throw an error that the per-attempt
`catch` *swallows* — only on the final attempt (`a = 11`) does it stop the
loop with that error, while on every earlier attempt polling continues
with the next attempt. -/
theorem poll_status_transitions (polls : ℕ → PollResp) (jitter : ℕ → ℚ)
    (a : ℕ) (d : ℚ) (fuel : ℕ) (hsum : a + fuel = 12) (hf : 0 < fuel) :
    (∀ r, polls a = .ok r → r.status = "succeeded" →
      (pollAux polls jitter 12 a d fuel).result = .ok r ∧
      (pollAux polls jitter 12 a d fuel).attempts = 1) ∧
    (∀ r, polls a = .ok r → (r.status = "running" ∨ r.status = "notStarted") →
      (pollAux polls jitter 12 a d fuel).result =
        (pollAux polls jitter 12 (a + 1) (nextDelay jitter a d) (fuel - 1)).result ∧
      (pollAux polls jitter 12 a d fuel).attempts =
        (pollAux polls jitter 12 (a + 1) (nextDelay jitter a d) (fuel - 1)).attempts + 1) ∧
    (∀ r, polls a = .ok r → r.status = "failed" →
      (a = 11 →
        (pollAux polls jitter 12 a d fuel).result =
          .error ("OCR analysis failed: " ++ r.errorMessage.getD "Unknown error") ∧
        (pollAux polls jitter 12 a d fuel).attempts = 1) ∧
      (a ≠ 11 →
        (pollAux polls jitter 12 a d fuel).result =
          (pollAux polls jitter 12 (a + 1) (nextDelay jitter a d) (fuel - 1)).result ∧
        (pollAux polls jitter 12 a d fuel).attempts =
          (pollAux polls jitter 12 (a + 1) (nextDelay jitter a d) (fuel - 1)).attempts + 1)) ∧
    (∀ r, polls a = .ok r → r.status ≠ "succeeded" → r.status ≠ "failed" →
      r.status ≠ "running" → r.status ≠ "notStarted" →
      (a = 11 →
        (pollAux polls jitter 12 a d fuel).result =
          .error ("Unknown status: " ++ r.status) ∧
        (pollAux polls jitter 12 a d fuel).attempts = 1) ∧
      (a ≠ 11 →
        (pollAux polls jitter 12 a d fuel).result =
          (pollAux polls jitter 12 (a + 1) (nextDelay jitter a d) (fuel - 1)).result ∧
        (pollAux polls jitter 12 a d fuel).attempts =
          (pollAux polls jitter 12 (a + 1) (nextDelay jitter a d) (fuel - 1)).attempts + 1)) := by
  cases fuel with
  | zero => exact absurd hf (by omega)
  | succ f =>
    refine ⟨?_, ?_, ?_, ?_⟩
    · intro r hr hs
      have hps : pollStep (polls a) = .done r := by
        rw [hr]
        exact pollStep_succeeded r hs
      rw [pollAux_succ, hps]
      exact ⟨rfl, rfl⟩
    · intro r hr hs
      have hps : pollStep (polls a) = .cont := by
        rw [hr]
        rcases hs with h | h
        · exact pollStep_running r h
        · exact pollStep_notStarted r h
      rw [pollAux_succ, hps]
      exact ⟨rfl, rfl⟩
    · intro r hr hs
      have hps : pollStep (polls a) =
          .err ("OCR analysis failed: " ++ r.errorMessage.getD "Unknown error") := by
        rw [hr]
        exact pollStep_failed r hs
      constructor
      · intro ha
        rw [pollAux_succ, hps]
        dsimp only
        rw [if_pos (by omega : a = 12 - 1)]
        exact ⟨rfl, rfl⟩
      · intro ha
        rw [pollAux_succ, hps]
        dsimp only
        rw [if_neg (by omega : ¬a = 12 - 1)]
        exact ⟨rfl, rfl⟩
    · intro r hr h1 h2 h3 h4
      have hps : pollStep (polls a) = .err ("Unknown status: " ++ r.status) := by
        rw [hr]
        exact pollStep_unknown r h1 h2 h3 h4
      constructor
      · intro ha
        rw [pollAux_succ, hps]
        dsimp only
        rw [if_pos (by omega : a = 12 - 1)]
        exact ⟨rfl, rfl⟩
      · intro ha
        rw [pollAux_succ, hps]
        dsimp only
        rw [if_neg (by omega : ¬a = 12 - 1)]
        exact ⟨rfl, rfl⟩

/-- **C3 witness.**  First attempt succeeded: the loop stops at once with
the result. -/
theorem poll_status_transitions_witness :
    (pollAux (fun _ => PollResp.ok ⟨"succeeded", none, none⟩) (fun _ => 0)
      12 0 2000 12).result = .ok ⟨"succeeded", none, none⟩ ∧
    (pollAux (fun _ => PollResp.ok ⟨"succeeded", none, none⟩) (fun _ => 0)
      12 0 2000 12).attempts = 1 :=
  (poll_status_transitions (fun _ => PollResp.ok ⟨"succeeded", none, none⟩)
    (fun _ => 0) 0 2000 12 rfl (by omega)).1 ⟨"succeeded", none, none⟩ rfl rfl

/-- **C3 counterexample (to the unamended claim).**  A `failed` status on
the first attempt does *not* stop polling: with poll 0 `failed` and poll 1
`succeeded`, `_pollForResults` returns the success after two attempts —
the `failed` throw was caught and swallowed by the per-attempt handler. -/
theorem poll_failed_does_not_stop_counterexample :
    (pollForResults (fun n => if n = 0 then PollResp.ok ⟨"failed", none, none⟩
      else PollResp.ok ⟨"succeeded", none, none⟩) (fun _ => 0)).result =
      .ok ⟨"succeeded", none, none⟩ ∧
    (pollForResults (fun n => if n = 0 then PollResp.ok ⟨"failed", none, none⟩
      else PollResp.ok ⟨"succeeded", none, none⟩) (fun _ => 0)).attempts = 2 := by
  exact ⟨by decide, by decide⟩

/-! ## C8 — attempt bound, backoff schedule, timeout -/

/-- Stepping the `delay` variable is exactly moving along `delayAt`. -/
theorem nextDelay_delayAt (jitter : ℕ → ℚ) (a : ℕ) :
    nextDelay jitter a (delayAt jitter a) = delayAt jitter (a + 1) := by
  cases a with
  | zero => rfl
  | succ n =>
    show (if n + 1 = 0 then delayAt jitter (n + 1)
      else min (delayAt jitter (n + 1) * (6/5) + jitter (n + 1)) 10000) =
      delayAt jitter (n + 1 + 1)
    rw [if_neg (Nat.succ_ne_zero n)]
    show _ = (if n + 1 = 0 then (2000 : ℚ)
      else min (delayAt jitter (n + 1) * (6/5) + jitter (n + 1)) 10000)
    rw [if_neg (Nat.succ_ne_zero n)]

/-- Reading an element of a mapped range. -/
theorem getElem?_map_range {α : Type} (f : ℕ → α) (n m : ℕ) (x : α)
    (hm : (List.map f (List.range n))[m]? = some x) : m < n ∧ x = f m := by
  have hlt : m < n := by
    by_contra hc
    rw [List.getElem?_eq_none_iff.mpr (by simp; omega)] at hm
    cases hm
  refine ⟨hlt, ?_⟩
  rw [List.getElem?_map, List.getElem?_range hlt] at hm
  simp only [Option.map_some'] at hm
  exact (Option.some.inj hm).symm

/-- From any iteration `a ≥ 1` whose `delay` variable is on schedule, the
polling loop performs at most `fuel` further attempts, and its waits are
exactly the scheduled delays `delayAt a, delayAt (a+1), …`, one per
attempt actually made. -/
theorem pollAux_waits_attempts (polls : ℕ → PollResp) (jitter : ℕ → ℚ) :
    ∀ (f a : ℕ), 1 ≤ a →
    (pollAux polls jitter 12 a (delayAt jitter a) f).attempts ≤ f ∧
    (pollAux polls jitter 12 a (delayAt jitter a) f).waits =
      (List.range (pollAux polls jitter 12 a (delayAt jitter a) f).attempts).map
        (fun i => delayAt jitter (a + i)) := by
  intro f
  induction f with
  | zero => exact fun a _ => ⟨Nat.le_refl 0, rfl⟩
  | succ f ih =>
    intro a ha
    rw [pollAux_succ]
    cases hps : pollStep (polls a) with
    | done r =>
      dsimp only
      refine ⟨by omega, ?_⟩
      rw [if_neg (by omega : ¬a = 0)]
      show [delayAt jitter a] = [delayAt jitter (a + 0)]
      rw [Nat.add_zero]
    | cont =>
      dsimp only
      rw [nextDelay_delayAt]
      obtain ⟨iha, ihw⟩ := ih (a + 1) (by omega)
      refine ⟨by omega, ?_⟩
      rw [if_neg (by omega : ¬a = 0), ihw]
      rw [List.range_succ_eq_map, List.map_cons, List.map_map, List.singleton_append,
        Nat.add_zero]
      congr 1
      apply List.map_congr_left
      intro i _
      show delayAt jitter (a + 1 + i) = delayAt jitter (a + (i + 1))
      congr 1
      omega
    | err e =>
      dsimp only
      by_cases h11 : a = 12 - 1
      · rw [if_pos h11]
        dsimp only
        refine ⟨by omega, ?_⟩
        rw [if_neg (by omega : ¬a = 0)]
        show [delayAt jitter a] = [delayAt jitter (a + 0)]
        rw [Nat.add_zero]
      · rw [if_neg h11]
        dsimp only
        rw [nextDelay_delayAt]
        obtain ⟨iha, ihw⟩ := ih (a + 1) (by omega)
        refine ⟨by omega, ?_⟩
        rw [if_neg (by omega : ¬a = 0), ihw]
        rw [List.range_succ_eq_map, List.map_cons, List.map_map, List.singleton_append,
          Nat.add_zero]
        congr 1
        apply List.map_congr_left
        intro i _
        show delayAt jitter (a + 1 + i) = delayAt jitter (a + (i + 1))
        congr 1
        omega

/-- `_pollForResults` as a whole: between 1 and 12 attempts, and the waits
are the scheduled delays starting at `delayAt 1 = 2000`. -/
theorem pollForResults_waits (polls : ℕ → PollResp) (jitter : ℕ → ℚ) :
    1 ≤ (pollForResults polls jitter).attempts ∧
    (pollForResults polls jitter).attempts ≤ 12 ∧
    (pollForResults polls jitter).waits =
      (List.range ((pollForResults polls jitter).attempts - 1)).map
        (fun i => delayAt jitter (1 + i)) := by
  have h0 : pollForResults polls jitter =
      match pollStep (polls 0) with
      | .done r => ⟨.ok r, [], 1⟩
      | .cont =>
        let o := pollAux polls jitter 12 1 (delayAt jitter 1) 11
        ⟨o.result, o.waits, o.attempts + 1⟩
      | .err e =>
        let o := pollAux polls jitter 12 1 (delayAt jitter 1) 11
        ⟨o.result, o.waits, o.attempts + 1⟩ := rfl
  rw [h0]
  cases hps : pollStep (polls 0) with
  | done r =>
    dsimp only
    exact ⟨by omega, by omega, by simp⟩
  | cont =>
    dsimp only
    obtain ⟨iha, ihw⟩ := pollAux_waits_attempts polls jitter 11 1 (Nat.le_refl 1)
    refine ⟨by omega, by omega, ?_⟩
    rw [ihw, Nat.add_sub_cancel]
  | err e =>
    dsimp only
    obtain ⟨iha, ihw⟩ := pollAux_waits_attempts polls jitter 11 1 (Nat.le_refl 1)
    refine ⟨by omega, by omega, ?_⟩
    rw [ihw, Nat.add_sub_cancel]

/-- When every poll keeps reporting a non-terminal status, the loop runs
out of fuel and throws the timeout error. -/
theorem pollAux_timeout (polls : ℕ → PollResp) (jitter : ℕ → ℚ)
    (hcont : ∀ i, i < 12 → pollStep (polls i) = .cont) :
    ∀ (f a : ℕ) (d : ℚ), a + f = 12 →
    (pollAux polls jitter 12 a d f).result =
      .error "OCR analysis timed out after maximum retries" ∧
    (pollAux polls jitter 12 a d f).attempts = f := by
  intro f
  induction f with
  | zero => exact fun a d _ => ⟨rfl, rfl⟩
  | succ f ih =>
    intro a d h
    rw [pollAux_succ, hcont a (by omega)]
    dsimp only
    obtain ⟨ih1, ih2⟩ := ih (a + 1) (nextDelay jitter a d) (by omega)
    exact ⟨ih1, by rw [ih2]⟩

/-- **C8.**  `_pollForResults` makes at most 12 poll attempts; the first
attempt is not preceded by any wait (there are at most 11 waits); the
first wait is the initial 2000 ms delay and each later wait is
`min(previous * 1.2 + jitter, 10000)` with a fresh jitter draw; and if
every attempt reports a non-terminal status (`running`/`notStarted`), the
call ends after exactly 12 attempts with the timeout error instead of
polling further. -/
theorem poll_schedule_and_timeout (polls : ℕ → PollResp) (jitter : ℕ → ℚ) :
    (pollForResults polls jitter).attempts ≤ 12 ∧
    (pollForResults polls jitter).waits.length ≤ 11 ∧
    (∀ w, (pollForResults polls jitter).waits[0]? = some w → w = 2000) ∧
    (∀ i w w', (pollForResults polls jitter).waits[i]? = some w →
      (pollForResults polls jitter).waits[i + 1]? = some w' →
      w' = min (w * (6/5) + jitter (i + 1)) 10000) ∧
    ((∀ i, i < 12 → ∃ r, polls i = PollResp.ok r ∧
        (r.status = "running" ∨ r.status = "notStarted")) →
      (pollForResults polls jitter).result =
        .error "OCR analysis timed out after maximum retries" ∧
      (pollForResults polls jitter).attempts = 12) := by
  obtain ⟨h1, h12, hw⟩ := pollForResults_waits polls jitter
  refine ⟨h12, ?_, ?_, ?_, ?_⟩
  · rw [hw, List.length_map, List.length_range]
    omega
  · intro w h0
    rw [hw] at h0
    obtain ⟨-, hx⟩ := getElem?_map_range _ _ _ _ h0
    rw [hx]
    rfl
  · intro i w w' hi hi'
    rw [hw] at hi hi'
    obtain ⟨-, hx⟩ := getElem?_map_range _ _ _ _ hi
    obtain ⟨-, hx'⟩ := getElem?_map_range _ _ _ _ hi'
    rw [hx, hx']
    show delayAt jitter (1 + (i + 1)) = _
    rw [show 1 + (i + 1) = (i + 1) + 1 from by omega]
    show (if i + 1 = 0 then (2000 : ℚ)
      else min (delayAt jitter (i + 1) * (6/5) + jitter (i + 1)) 10000) = _
    rw [if_neg (Nat.succ_ne_zero i)]
    rw [show 1 + i = i + 1 from by omega]
  · intro hterm
    have hcont : ∀ i, i < 12 → pollStep (polls i) = .cont := by
      intro i hi
      obtain ⟨r, hr, hs⟩ := hterm i hi
      rw [hr]
      rcases hs with h | h
      · exact pollStep_running r h
      · exact pollStep_notStarted r h
    exact pollAux_timeout polls jitter hcont 12 0 2000 rfl

/-- **C8 witness.**  Twelve `running` responses with zero jitter: twelve
attempts, eleven waits, the first wait `2000`, the second
`min(2000 * 1.2 + 0, 10000) = 2400`, and the timeout error. -/
theorem poll_schedule_and_timeout_witness :
    (pollForResults (fun _ => PollResp.ok ⟨"running", none, none⟩)
      (fun _ => 0)).result =
      .error "OCR analysis timed out after maximum retries" ∧
    (pollForResults (fun _ => PollResp.ok ⟨"running", none, none⟩)
      (fun _ => 0)).attempts = 12 :=
  (poll_schedule_and_timeout (fun _ => PollResp.ok ⟨"running", none, none⟩)
    (fun _ => 0)).2.2.2.2
    (fun i _ => ⟨⟨"running", none, none⟩, rfl, Or.inl rfl⟩)

/-! ## C9 — what the upload file filter actually rejects -/

/-- **C9 (amended).**  The intake `fileFilter` decides purely on declared
MIME type and (lowercased) extension: a file is accepted exactly when its
MIME type is in the allow-list and its extension is in the allowed
extension list.  The original filename is otherwise *not* inspected —
names containing `../`, `..\`, or leading dots are not rejected for that
reason; they are neutralized instead, the stored name being a generated
UUID plus the validated extension.  (Traversal names without an allowed
extension, such as `../../../etc/passwd`, are rejected — by the extension
check.) -/
theorem fileFilter_decides_by_type_only (f : UploadFile) :
    (fileFilter f).isOk =
      (ALLOWED_MIME_TYPES.contains f.mimetype &&
       ALLOWED_EXTENSIONS.contains (extnameLower f.originalname)) := by
  unfold fileFilter sanitizeFilenameExt
  by_cases hm : ALLOWED_MIME_TYPES.contains f.mimetype
  · rw [if_pos hm, hm, Bool.true_and]
    dsimp only
    by_cases he : ALLOWED_EXTENSIONS.contains (extnameLower f.originalname)
    · rw [if_pos he, he]
      rfl
    · rw [if_neg he]
      rw [Bool.not_eq_true] at he
      rw [he]
      rfl
  · rw [if_neg hm]
    rw [Bool.not_eq_true] at hm
    rw [hm, Bool.false_and]
    rfl

/-- **C9 counterexample (to the unamended claim).**  A filename carrying
a parent-directory segment but an allowed extension (`../evil.jpg`,
declared `image/jpeg`) is *accepted* by the filter, as is a hidden-marker
name (`.hidden.jpg`); neither file nor batch is rejected. -/
theorem fileFilter_accepts_traversal_counterexample :
    hasParentSeg "../evil.jpg" = true ∧
    fileFilter ⟨"../evil.jpg", "image/jpeg"⟩ = .ok ".jpg" ∧
    ".hidden.jpg".data.head? = some '.' ∧
    fileFilter ⟨".hidden.jpg", "image/jpeg"⟩ = .ok ".jpg" :=
  ⟨by decide, by decide, by decide, by decide⟩

/-! ## C10 — generated batch ids versus the submit-side pattern -/

/-- `takeWhile` passes over a prefix it accepts entirely. -/
theorem takeWhile_all_append (p : Char → Bool) (l r : List Char)
    (h : ∀ c ∈ l, p c = true) :
    (l ++ r).takeWhile p = l ++ r.takeWhile p := by
  induction l with
  | nil => simp
  | cons x xs ih =>
    rw [List.cons_append, List.takeWhile_cons, h x (List.mem_cons_self x xs),
      if_pos rfl, ih (fun c hc => h c (List.mem_cons_of_mem x hc)),
      List.cons_append]

/-- `dropWhile` skips a prefix it accepts entirely. -/
theorem dropWhile_all_append (p : Char → Bool) (l r : List Char)
    (h : ∀ c ∈ l, p c = true) :
    (l ++ r).dropWhile p = r.dropWhile p := by
  induction l with
  | nil => simp
  | cons x xs ih =>
    rw [List.cons_append, List.dropWhile_cons]
    rw [h x (List.mem_cons_self x xs), if_pos rfl]
    exact ih (fun c hc => h c (List.mem_cons_of_mem x hc))

/-- The ten decimal digit characters satisfy `isDigitCh`. -/
theorem digitCh_isDigit (d : ℕ) (h : d < 10) : isDigitCh (digitCh d) = true := by
  interval_cases d <;> decide

/-- Every character `decCharsRev` emits is a decimal digit. -/
theorem decCharsRev_digits (fuel : ℕ) :
    ∀ (n : ℕ) (c : Char), c ∈ decCharsRev fuel n → isDigitCh c = true := by
  induction fuel with
  | zero => intro n c hc; cases hc
  | succ f ih =>
    intro n c hc
    unfold decCharsRev at hc
    by_cases hn : n = 0
    · rw [if_pos hn] at hc
      cases hc
    · rw [if_neg hn] at hc
      rcases List.mem_cons.mp hc with rfl | hc2
      · exact digitCh_isDigit _ (Nat.mod_lt n (by omega))
      · exact ih (n / 10) c hc2

/-- Every character of the decimal rendering is a digit. -/
theorem decimalChars_digits (n : ℕ) :
    ∀ c ∈ decimalChars n, isDigitCh c = true := by
  intro c hc
  unfold decimalChars at hc
  by_cases hn : n = 0
  · rw [if_pos hn] at hc
    rcases List.mem_singleton.mp hc with rfl
    decide
  · rw [if_neg hn] at hc
    exact decCharsRev_digits n n c (List.mem_reverse.mp hc)

/-- The decimal rendering is never empty. -/
theorem decimalChars_ne_nil (n : ℕ) : decimalChars n ≠ [] := by
  unfold decimalChars
  by_cases hn : n = 0
  · rw [if_pos hn]
    exact List.cons_ne_nil _ _
  · rw [if_neg hn]
    intro hrev
    have : decCharsRev n n = [] := by
      have := congrArg List.reverse hrev
      simpa using this
    cases n with
    | zero => exact hn rfl
    | succ m =>
      unfold decCharsRev at this
      rw [if_neg hn] at this
      exact List.cons_ne_nil _ _ this

/-- Every base-36 digit character is in `[a-z0-9]`. -/
theorem digit36_isLowerAlnum : ∀ d : Fin 36, isLowerAlnumCh (digitCh d.val) = true := by
  decide

/-- **C10 (amended).**  Every batch identifier the upload handler
generates from a `Math.random()` draw with a non-empty base-36 fractional
expansion (i.e. a draw other than exactly 0) matches `BATCH_ID_REGEX`, so
it is never rejected as invalid at submission time. -/
theorem generated_batchId_matches (ts : ℕ) (frac : List (Fin 36))
    (hf : frac ≠ []) : matchBatchId (genBatchId ts frac) = true := by
  have hsplit : (genBatchId ts frac).data =
      'b' :: 'a' :: 't' :: 'c' :: 'h' :: '-' ::
        (decimalChars ts ++ '-' :: randSuffixChars frac) := by
    show ((("batch-".data ++ decimalChars ts) ++ "-".data) ++ randSuffixChars frac) = _
    show (((['b', 'a', 't', 'c', 'h', '-'] ++ decimalChars ts) ++ ['-']) ++
      randSuffixChars frac) = _
    simp
  unfold matchBatchId
  rw [hsplit]
  show (!((decimalChars ts ++ '-' :: randSuffixChars frac).takeWhile isDigitCh).isEmpty &&
    (match (decimalChars ts ++ '-' :: randSuffixChars frac).dropWhile isDigitCh with
     | '-' :: tail => !tail.isEmpty && tail.all isLowerAlnumCh
     | _ => false)) = true
  rw [takeWhile_all_append isDigitCh _ _ (decimalChars_digits ts),
    dropWhile_all_append isDigitCh _ _ (decimalChars_digits ts)]
  rw [show ('-' :: randSuffixChars frac).takeWhile isDigitCh = [] from rfl,
    show ('-' :: randSuffixChars frac).dropWhile isDigitCh =
      '-' :: randSuffixChars frac from rfl]
  show (!(decimalChars ts ++ ([] : List Char)).isEmpty &&
    (!(randSuffixChars frac).isEmpty &&
      (randSuffixChars frac).all isLowerAlnumCh)) = true
  rw [List.append_nil]
  simp only [Bool.and_eq_true, Bool.not_eq_true', List.all_eq_true]
  refine ⟨?_, ?_, ?_⟩
  · rw [List.isEmpty_eq_false]
    exact decimalChars_ne_nil ts
  · rw [List.isEmpty_eq_false]
    unfold randSuffixChars
    intro hmap
    exact hf (List.map_eq_nil.mp hmap)
  · intro c hc
    unfold randSuffixChars at hc
    obtain ⟨d, -, rfl⟩ := List.mem_map.mp hc
    exact digit36_isLowerAlnum d

/-- **C10 witness.**  `Date.now() = 0` and the single fractional digit
`a`: the generated id `batch-0-a` matches the pattern. -/
theorem generated_batchId_matches_witness :
    matchBatchId (genBatchId 0 [(10 : Fin 36)]) = true :=
  generated_batchId_matches 0 [(10 : Fin 36)] (by decide)

/-- **C10 counterexample (to the unamended claim).**  When `Math.random()`
returns exactly 0, `toString(36).slice(2)` is empty: the generated id is
`batch-0-`, which the submit-side pattern rejects. -/
theorem generated_batchId_counterexample :
    genBatchId 0 [] = "batch-0-" ∧
    matchBatchId (genBatchId 0 []) = false :=
  ⟨by decide, by decide⟩
